import Mathlib

/-!
Shallow embedding of the repository GraysonSpidle/TickerToCIK
(files `tickerToCIK.py` and `timer.py`).

The repository resolves stock tickers to SEC Central Index Keys (CIKs):

* `timer.py` defines a `Timer` class (a thread that sleeps for a given
  number of seconds; `wait` joins it).
* `tickerToCIK.py` defines
  - `get_CIK(ticker)`: builds a lookup URL from the ticker
    (`ticker.strip().replace("\n","")`), performs `get(url)` twice
    (lines 30 and 31), asserts the first response is OK, and extracts the
    CIK from the body with
    `re.findall("([0-9]*) \\(see all company filings\\)", data)[0]`,
    returning `None` when the extraction raises;
  - `_get_CIKs_multithread(tickers)`: spawns one thread per ticker that
    writes `output[ticker] = get_CIK(ticker)` into a shared dict, pacing
    thread creation with the `Timer` so that at most
    `numberOfConnectionsPerSecond = 5` spawns happen per timer window;
  - `get_CIKs(tickers, enableMultiThreading)`: validates the arguments,
    then either loops sequentially (`output[ticker] = get_CIK(ticker)`)
    or delegates to `_get_CIKs_multithread`;
  - `get_CIKs_file_to_file`: reads tickers from a file, calls `get_CIKs`,
    and writes `"%s,%s\n" % (ticker, cik)` lines to an output file opened
    with mode `'w'` (truncating).

Modelling conventions:

* Machine-level effects are made explicit: the HTTP transport is a
  parameter `httpGet : String → Except String Response` (an `Except.error`
  models a `requests` exception), Python exceptions escaping a function
  are `Except.error`, and a Python `dict` is an association list with
  nodup keys, mutated by `dictSet` (update-in-place-or-append, exactly
  `dict.__setitem__`).
* The multithreaded batch is linearised: CPython's GIL makes each
  `output[ticker] = ...` store atomic, so a run is some permutation
  (`completionOrder`) of the per-ticker writes; the claims quantify over
  that permutation.
* The pacing loop of `_get_CIKs_multithread` is modelled as the list of
  events it performs (`Timer.start`, `Timer.wait`, thread spawns), so
  rate-gate claims become statements about that event trace.
-/

/-! ### timer.py: the Timer class -/

/-- State of the `_thread` attribute of a `Timer` object: `Timer.__init__`
sets it to `None` (timer.py line 14), `Timer.start` stores a freshly
started thread (line 25), and `Timer.wait` executes `del self._thread`
(line 34), after which the attribute no longer exists. -/
inductive ThreadField where
  | attrDeleted : ThreadField
  | noneVal : ThreadField
  | running (seconds : Nat) : ThreadField
  deriving DecidableEq

/-- A `Timer` object (timer.py lines 12-41): its only state is the
`_thread` attribute. -/
structure TimerState where
  threadAttr : ThreadField
  deriving DecidableEq

/-- What a call to `Timer.wait` does: return normally (recording whether it
joined, i.e. blocked on, a live thread) or raise `AttributeError` because
`self._thread` was deleted by a previous `wait`. -/
inductive WaitOutcome where
  | returned (joined : Bool) : WaitOutcome
  | attributeError : WaitOutcome
  deriving DecidableEq

/-- `Timer.__init__` (timer.py lines 13-14): `self._thread = None`. -/
def Timer.init : TimerState := { threadAttr := ThreadField.noneVal }

/-- `Timer.start(seconds)` (timer.py lines 16-26): unconditionally replaces
`self._thread` with a new started thread that sleeps `seconds`. -/
def Timer.start (s : TimerState) (seconds : Nat) : TimerState :=
  { threadAttr := ThreadField.running seconds }

/-- `Timer.wait` (timer.py lines 28-36): reading `self._thread` raises
`AttributeError` if the attribute was deleted; if it is `None` the call
returns at once without blocking; otherwise it joins the thread (blocking)
and then executes `del self._thread`. -/
def Timer.wait (s : TimerState) : WaitOutcome × TimerState :=
  match s.threadAttr with
  | ThreadField.attrDeleted => (WaitOutcome.attributeError, s)
  | ThreadField.noneVal => (WaitOutcome.returned false, s)
  | ThreadField.running _ =>
      (WaitOutcome.returned true, { threadAttr := ThreadField.attrDeleted })

/-! ### tickerToCIK.py: the pacing loop of `_get_CIKs_multithread`
as an event trace -/

/-- `numberOfConnectionsPerSecond = 5` (tickerToCIK.py line 46). -/
def numberOfConnectionsPerSecond : Nat := 5

/-- An observable step of `_get_CIKs_multithread`: a `timer.start(seconds)`
call, a `timer.wait()` call, or the spawn of the worker thread for the
ticker at position `pos` of the input. -/
inductive Event where
  | timerStart (seconds : Nat) : Event
  | timerWait : Event
  | spawn (pos : Nat) (ticker : String) : Event
  deriving DecidableEq

/-- The `for pos, ticker in enumerate(tickers)` loop of
`_get_CIKs_multithread` (tickerToCIK.py lines 53-62), as the list of
events it performs. `pos` is the enumeration index and `i` the index
recorded at the last window reset (initially `0`, line 52). When
`pos - i >= numberOfConnectionsPerSecond` the loop calls `timer.wait()`,
then `timer.start(1)`, sets `i = pos`, and proceeds to spawn; `pos ≥ i`
always holds, so Nat subtraction agrees with Python's. -/
def multithreadLoop : List String → Nat → Nat → List Event
  | [], _, _ => []
  | ticker :: rest, pos, i =>
    if numberOfConnectionsPerSecond ≤ pos - i then
      Event.timerWait :: Event.timerStart 1 :: Event.spawn pos ticker ::
        multithreadLoop rest (pos + 1) pos
    else
      Event.spawn pos ticker :: multithreadLoop rest (pos + 1) i

/-- The full event trace of `_get_CIKs_multithread` (tickerToCIK.py
lines 46-62): `timer.start(1)` (line 51), then the enumeration loop
starting with `pos = 0` and `i = 0`. -/
def multithreadTrace (tickers : List String) : List Event :=
  Event.timerStart 1 :: multithreadLoop tickers 0 0

/-- Characterisation of the pacing loop by the count `c` of admissions
since the current window opened: a reset fires exactly when `c` reaches
`numberOfConnectionsPerSecond`, and the caller that triggers the reset is
itself the first admission of the new window (the recursion continues
with `c = 1`). `multithreadLoop tickers pos i` is proved equal to
`windowedTrace tickers pos (pos - i)`. -/
def windowedTrace : List String → Nat → Nat → List Event
  | [], _, _ => []
  | ticker :: rest, pos, c =>
    if numberOfConnectionsPerSecond ≤ c then
      Event.timerWait :: Event.timerStart 1 :: Event.spawn pos ticker ::
        windowedTrace rest (pos + 1) 1
    else
      Event.spawn pos ticker :: windowedTrace rest (pos + 1) (c + 1)

/-- Whether an event is a worker-thread spawn (an admission). -/
def Event.isSpawn : Event → Bool
  | Event.spawn _ _ => true
  | _ => false

/-- Number of admissions (spawn events) in a list of events. -/
def admitCount (l : List Event) : Nat := l.countP Event.isSpawn

/-- Splits an event trace into the segments delimited by `timerStart`
events: `segs l` lists, in order, the runs of events strictly between
consecutive `timerStart`s (plus the run before the first and after the
last). Each segment after the first is the body of one timer window. -/
def segs : List Event → List (List Event)
  | [] => [[]]
  | Event.timerStart _ :: rest => [] :: segs rest
  | e :: rest =>
    match segs rest with
    | s :: more => (e :: s) :: more
    | [] => [[e]]

/-- Checks that every `timerWait` in the trace is immediately followed by a
`timerStart` and then a spawn: the caller that waits out the window is
the one that opens the next window and is its first admission. -/
def waitsRearm : List Event → Bool
  | [] => true
  | Event.timerWait :: rest =>
    match rest with
    | Event.timerStart _ :: Event.spawn _ _ :: _ => waitsRearm rest
    | _ => false
  | _ :: rest => waitsRearm rest

/-- Replays the `Timer.start` / `Timer.wait` calls of an event trace
against the `Timer` state machine, returning `false` if some `wait`
raises `AttributeError`. -/
def timerCallsOk : TimerState → List Event → Bool
  | _, [] => true
  | s, Event.timerStart seconds :: rest => timerCallsOk (Timer.start s seconds) rest
  | s, Event.timerWait :: rest =>
    match Timer.wait s with
    | (WaitOutcome.attributeError, _) => false
    | (_, s') => timerCallsOk s' rest
  | s, Event.spawn _ _ :: rest => timerCallsOk s rest

/-! ### Python dicts as association lists -/

/-- A Python dict mapping tickers to CIK lookup results (`str` or `None`),
as an association list with distinct keys in insertion order. -/
abbrev ResultSet := List (String × Option String)

/-- `output[ticker] = value` (`dict.__setitem__`): update the entry in
place if the key is present, else append a new entry. -/
def dictSet : ResultSet → String → Option String → ResultSet
  | [], k, v => [(k, v)]
  | p :: m, k, v => if p.1 == k then (k, v) :: m else p :: dictSet m k v

/-- Dictionary lookup: the value stored under `k`, if any. -/
def dictGet (m : ResultSet) (k : String) : Option (Option String) :=
  (m.find? (fun p => p.1 == k)).map Prod.snd

/-- `list(output.keys())`: the keys of the dict in insertion order. -/
def dictKeys (m : ResultSet) : List String := m.map Prod.fst

/-- The writes a batch run performs: starting from dict `m`, store
`fetch t` under key `t` for each `t` in `ts`, in order. The sequential
branch of `get_CIKs` performs them in input order; a multithreaded run
performs them in thread completion order. -/
def writeAll (fetch : String → Option String) (ts : List String) (m : ResultSet) :
    ResultSet :=
  ts.foldl (fun out t => dictSet out t (fetch t)) m

/-- The dict produced by `get_CIKs(tickers, enableMultiThreading)`
(tickerToCIK.py lines 96-104) with the per-ticker lookup abstracted as a
deterministic `fetch : String → Option String` (the fetch collaborator of
the spec). With multithreading off, the loop at lines 99-100 writes
`output[ticker] = get_CIK(ticker)` in input order; with multithreading
on, `_get_CIKs_multithread` spawns one thread per ticker, each executing
`output.__setitem__(ticker, get_CIK(ticker))` (line 60), and the atomic
stores land in an unspecified completion order, modelled by the
`completionOrder` permutation of the input. -/
def get_CIKs (fetch : String → Option String) (tickers : List String)
    (enableMultiThreading : Bool) (completionOrder : List String) : ResultSet :=
  if enableMultiThreading then writeAll fetch completionOrder []
  else writeAll fetch tickers []

/-! ### tickerToCIK.py: `get_CIK` -/

/-- An HTTP response as `get_CIK` observes it: the `ok` flag and the
decoded body. -/
structure Response where
  ok : Bool
  content : String
  deriving DecidableEq

/-- Python `str.strip()` strips these characters from both ends. -/
def isPyWhitespace (c : Char) : Bool :=
  c == ' ' || c == '\t' || c == '\n' || c == '\r' || c == '\x0b' || c == '\x0c'

/-- `ticker.strip()`: drop leading and trailing Python whitespace. -/
def pyStrip (s : String) : String :=
  String.mk (((s.data.dropWhile isPyWhitespace).reverse.dropWhile isPyWhitespace).reverse)

/-- `.replace("\n", "")`: remove every newline character. -/
def removeNewlines (s : String) : String :=
  String.mk (s.data.filter (fun c => c != '\n'))

/-- The lookup URL built by `get_CIK` (tickerToCIK.py line 29):
`"https://www.sec.gov/cgi-bin/browse-edgar?CIK=%s&owner=exclude&action=getcompany" % (ticker.strip().replace("\n",""))`. -/
def lookupURL (ticker : String) : String :=
  "https://www.sec.gov/cgi-bin/browse-edgar?CIK=" ++
    removeNewlines (pyStrip ticker) ++ "&owner=exclude&action=getcompany"

/-- Message of the `assert conn.ok` statement (tickerToCIK.py line 32). -/
def assertMsg : String :=
  "Connection wasn't successful. Perhaps you exceeded the maximum allowed connections per second."

/-- The literal part of the regex
`"([0-9]*) \\(see all company filings\\)"` that follows the captured
digit group. -/
def cikMarker : List Char := " (see all company filings)".data

/-- Whether `pat` occurs at the head of `l`. -/
def matchesAt : List Char → List Char → Bool
  | [], _ => true
  | _ :: _, [] => false
  | p :: ps, c :: cs => p == c && matchesAt ps cs

/-- Index of the first occurrence of `cikMarker` in `l`, if any. -/
def findMarker : List Char → Option Nat
  | [] => none
  | c :: cs =>
    if matchesAt cikMarker (c :: cs) then some 0
    else (findMarker cs).map (fun n => n + 1)

/-- The longest all-digit suffix of `l`. -/
def digitSuffix (l : List Char) : List Char :=
  ((l.reverse.takeWhile (fun c => c.isDigit)).reverse)

/-- The extraction
`re.findall("([0-9]*) \\(see all company filings\\)", data)[0].replace("\n","")`
(tickerToCIK.py line 34) with the surrounding `try`/`except` (lines
33-36): the leftmost regex match sits at the first occurrence of the
literal marker, and its captured group is the run of digits immediately
before that occurrence (the greedy `[0-9]*`); when there is no match,
`findall` returns `[]` and the `[0]` raises `IndexError`, which the bare
`except` turns into `None`. -/
def extractCIK (data : String) : Option String :=
  match findMarker data.data with
  | none => none
  | some q => some (removeNewlines (String.mk (digitSuffix (data.data.take q))))

/-- `get_CIK(ticker)` (tickerToCIK.py lines 14-38) together with the list
of URLs it requests, in order. The transport is
`httpGet : String → Except String Response`, where `Except.error` models
a `requests` exception escaping `get(url)`. The body performs, in order:
`conn = get(url)` (line 30), `data = get(url).content.decode()`
(line 31, a second round trip to the same URL), `assert conn.ok`
(line 32, raising `AssertionError` with `assertMsg` when the first
response is not OK), and the guarded extraction (lines 33-36). The first
component is the call's outcome (`Except.error` = an exception propagates
to the caller); the second lists every URL an HTTP GET was issued for. -/
def get_CIK_run (httpGet : String → Except String Response) (ticker : String) :
    Except String (Option String) × List String :=
  let url := lookupURL ticker
  match httpGet url with
  | Except.error e => (Except.error e, [url])
  | Except.ok conn =>
    match httpGet url with
    | Except.error e => (Except.error e, [url, url])
    | Except.ok resp =>
      if conn.ok then (Except.ok (extractCIK resp.content), [url, url])
      else (Except.error assertMsg, [url, url])

/-- The outcome of `get_CIK(ticker)`: the resolved CIK, `None`, or an
exception propagating to the caller. -/
def get_CIK (httpGet : String → Except String Response) (ticker : String) :
    Except String (Option String) :=
  (get_CIK_run httpGet ticker).1

/-! ### tickerToCIK.py: argument validation of `get_CIKs` -/

/-- The `tickers` argument as the validation at tickerToCIK.py line 90
sees it: either an object with neither `__next__` nor `__iter__`
(described by the string `type()` would print), or an iterable of
strings. -/
inductive TickersArg where
  | notIterable (descr : String) : TickersArg
  | ofList (l : List String) : TickersArg

/-- The `enableMultiThreading` argument as the validation at
tickerToCIK.py line 92 sees it: a `bool`, or some other object
(described by its printed form). -/
inductive FlagArg where
  | ofBool (b : Bool) : FlagArg
  | notBool (descr : String) : FlagArg

/-- A Python exception raised by `get_CIKs`'s parameter validation. -/
inductive PyError where
  | typeError (msg : String) : PyError
  | valueError (msg : String) : PyError
  deriving DecidableEq

/-- `get_CIKs` with its parameter validation (tickerToCIK.py lines
89-104): a non-iterable `tickers` raises `TypeError` (lines 90-91), a
non-bool `enableMultiThreading` raises `ValueError` (lines 92-93), and
otherwise the batch of `get_CIKs` runs. -/
def get_CIKs_checked (fetch : String → Option String) (tickers : TickersArg)
    (flag : FlagArg) (completionOrder : List String) : Except PyError ResultSet :=
  match tickers with
  | TickersArg.notIterable d =>
    Except.error (PyError.typeError
      ("Parameter tickers of type " ++ d ++ " is not iterable."))
  | TickersArg.ofList l =>
    match flag with
    | FlagArg.notBool d =>
      Except.error (PyError.valueError
        ("Parameter enableMultiThreading must be either True or False not " ++ d ++ "."))
    | FlagArg.ofBool b => Except.ok (get_CIKs fetch l b completionOrder)

/-! ### tickerToCIK.py: the file sink of `get_CIKs_file_to_file` -/

/-- Python's `"%s" % cik` for a value that is a string or `None`: `None`
renders as the text `"None"`. -/
def renderCIK : Option String → String
  | none => "None"
  | some s => s

/-- One output line `"%s,%s\n" % (ticker, cik)` (tickerToCIK.py
line 136). -/
def outputLine (ticker : String) (cik : Option String) : String :=
  ticker ++ "," ++ renderCIK cik ++ "\n"

/-- The write phase of `get_CIKs_file_to_file` (tickerToCIK.py lines 131
and 134-137) applied to a result dict `mapped`: `open(outputFilePath,
'w')` truncates the file (its previous contents are discarded), then the
loop appends `outputLine` for each entry of `mapped`, in order. The value
returned is the final contents of the output file. -/
def get_CIKs_file_to_file_write (previousContents : String) (mapped : ResultSet) :
    String :=
  let afterOpen : String := ""
  mapped.foldl (fun contents p => contents ++ outputLine p.1 p.2) afterOpen

/-! ### tickerToCIK.py: the rate-gate state created by
`_get_CIKs_multithread` -/

/-- The state that plays the spec's "Rate Gate" role, as
`_get_CIKs_multithread` creates it (tickerToCIK.py lines 46-52): the
hard-coded quota `numberOfConnectionsPerSecond`, the `Timer` (constructed
by `Timer()` and immediately started with `timer.start(1)`, lines
50-51), and the loop variable `i = 0` (line 52). -/
structure GateState where
  maxPerWindow : Nat
  timer : TimerState
  lastResetPos : Nat
  deriving DecidableEq

/-- The gate construction `_get_CIKs_multithread` performs (tickerToCIK.py
lines 46-52). It is a total constant: there is no quota parameter, no
validation, and no error path — the quota is the literal `5`. -/
def initGate : GateState :=
  { maxPerWindow := numberOfConnectionsPerSecond
    timer := Timer.start Timer.init 1
    lastResetPos := 0 }

/-! ### Concrete stubs used to evaluate the embedding -/

/-- A deterministic stub fetch collaborator: every ticker resolves to
`"320193"`. -/
def stubFetch : String → Option String := fun _ => some "320193"

/-- The deterministic stub fetch of the spec's scenario: `"AAPL"` resolves
to `"320193"`, `"MSFT"` to `"789019"`, everything else is absent. -/
def scenarioFetch : String → Option String := fun t =>
  if t == "AAPL" then some "320193"
  else if t == "MSFT" then some "789019"
  else none

/-- A transport stub whose responses are OK and carry a body the CIK
extraction succeeds on. -/
def stubOkGet : String → Except String Response := fun _ =>
  Except.ok { ok := true, content := "0000320193 (see all company filings)" }

/-- A transport stub whose responses are not OK (e.g. HTTP 403 after the
SEC's rate limit was exceeded). -/
def stubNotOkGet : String → Except String Response := fun _ =>
  Except.ok { ok := false, content := "" }

/-- A transport stub where `get(url)` itself raises (e.g. a
`requests.exceptions.ConnectionError`). -/
def stubRaiseGet : String → Except String Response := fun _ =>
  Except.error "requests.exceptions.ConnectionError"

/-- A transport stub whose responses are OK but whose body does not
contain the CIK marker, so the extraction fails. -/
def stubNoMarkerGet : String → Except String Response := fun _ =>
  Except.ok { ok := true, content := "<html>No matching companies.</html>" }

/-- The text the file sink is expected to produce for a result dict: the
concatenation, in entry order, of one `identifier,value` line per entry,
each terminated by a newline. -/
def renderedLines : ResultSet → String
  | [] => ""
  | p :: m => outputLine p.1 p.2 ++ renderedLines m

/-! ### Lemmas about the pacing-loop trace -/

theorem multithreadLoop_eq_windowed (ts : List String) :
    ∀ pos i, i ≤ pos → pos - i ≤ numberOfConnectionsPerSecond →
      multithreadLoop ts pos i = windowedTrace ts pos (pos - i) := by
  induction ts with
  | nil => intro pos i _ _; rfl
  | cons t ts ih =>
    intro pos i hle hwin
    by_cases h : numberOfConnectionsPerSecond ≤ pos - i
    · have h1 : (pos + 1) - pos = 1 := by omega
      have := ih (pos + 1) pos (by omega)
        (by show (pos + 1) - pos ≤ 5; omega)
      rw [h1] at this
      simp [multithreadLoop, windowedTrace, h, this]
    · have h1 : (pos + 1) - i = (pos - i) + 1 := by omega
      have := ih (pos + 1) i (by omega)
        (by simp [numberOfConnectionsPerSecond] at h ⊢; omega)
      rw [h1] at this
      simp [multithreadLoop, windowedTrace, h, this]

theorem segs_windowed_bound (ts : List String) :
    ∀ pos c, c ≤ numberOfConnectionsPerSecond →
      ∃ s rest, segs (windowedTrace ts pos c) = s :: rest ∧
        admitCount s ≤ numberOfConnectionsPerSecond - c ∧
        ∀ x ∈ rest, admitCount x ≤ numberOfConnectionsPerSecond := by
  induction ts with
  | nil =>
    intro pos c _
    exact ⟨[], [], rfl, by simp [admitCount], by simp⟩
  | cons t ts ih =>
    intro pos c hc
    by_cases h : numberOfConnectionsPerSecond ≤ c
    · have hc5 : c = numberOfConnectionsPerSecond := le_antisymm hc h
      obtain ⟨s, rest, hsegs, hs, hrest⟩ :=
        ih (pos + 1) 1 (by simp [numberOfConnectionsPerSecond])
      refine ⟨[Event.timerWait], (Event.spawn pos t :: s) :: rest, ?_, ?_, ?_⟩
      · simp [windowedTrace, h, segs, hsegs]
      · simp [admitCount, Event.isSpawn, hc5]
      · intro x hx
        rcases List.mem_cons.mp hx with hx | hx
        · subst hx
          have hadd : admitCount (Event.spawn pos t :: s) = admitCount s + 1 := by
            simp [admitCount, Event.isSpawn]
          have h5 : numberOfConnectionsPerSecond = 5 := rfl
          omega
        · exact hrest x hx
    · have hc1 : c + 1 ≤ numberOfConnectionsPerSecond := by omega
      obtain ⟨s, rest, hsegs, hs, hrest⟩ := ih (pos + 1) (c + 1) hc1
      refine ⟨Event.spawn pos t :: s, rest, ?_, ?_, hrest⟩
      · simp [windowedTrace, h, segs, hsegs]
      · have hadd : admitCount (Event.spawn pos t :: s) = admitCount s + 1 := by
          simp [admitCount, Event.isSpawn]
        have h5 : numberOfConnectionsPerSecond = 5 := rfl
        omega

theorem waitsRearm_windowed (ts : List String) :
    ∀ pos c, waitsRearm (windowedTrace ts pos c) = true := by
  induction ts with
  | nil => intro pos c; rfl
  | cons t ts ih =>
    intro pos c
    by_cases h : numberOfConnectionsPerSecond ≤ c
    · cases hts : windowedTrace ts (pos + 1) 1 with
      | nil => simp [windowedTrace, h, waitsRearm, hts]
      | cons e rest =>
        have := ih (pos + 1) 1
        rw [hts] at this
        simp [windowedTrace, h, waitsRearm, hts, this]
    · simp [windowedTrace, h, waitsRearm, ih (pos + 1) (c + 1)]

theorem timerCallsOk_windowed (ts : List String) :
    ∀ pos c, timerCallsOk { threadAttr := ThreadField.running 1 }
      (windowedTrace ts pos c) = true := by
  induction ts with
  | nil => intro pos c; rfl
  | cons t ts ih =>
    intro pos c
    by_cases h : numberOfConnectionsPerSecond ≤ c
    · simp [windowedTrace, h, timerCallsOk, Timer.wait, Timer.start, ih (pos + 1) 1]
    · simp [windowedTrace, h, timerCallsOk, ih (pos + 1) (c + 1)]

/-! ### Lemmas about the dict model -/

theorem dictGet_set_self (m : ResultSet) (k : String) (v : Option String) :
    dictGet (dictSet m k v) k = some v := by
  induction m with
  | nil => simp [dictSet, dictGet, List.find?]
  | cons p m ih =>
    by_cases h : p.1 = k
    · simp [dictSet, dictGet, List.find?, h]
    · have hb : (p.1 == k) = false := by simp [h]
      simpa [dictSet, dictGet, List.find?, hb] using ih

theorem dictGet_set_ne (m : ResultSet) (k k' : String) (v : Option String)
    (h : k' ≠ k) : dictGet (dictSet m k v) k' = dictGet m k' := by
  have hb : (k == k') = false := by
    simp [(Ne.symm h : k ≠ k')]
  induction m with
  | nil => simp [dictSet, dictGet, List.find?, hb]
  | cons p m ih =>
    by_cases hp : p.1 = k
    · have hp' : (p.1 == k') = false := by simp [hp, (Ne.symm h : k ≠ k')]
      simp [dictSet, dictGet, List.find?, hp, hp', hb]
    · have hpb : (p.1 == k) = false := by simp [hp]
      by_cases hq : p.1 = k'
      · simp [dictSet, dictGet, List.find?, hpb, hq, h]
      · have hqb : (p.1 == k') = false := by simp [hq]
        simpa [dictSet, dictGet, List.find?, hpb, hqb] using ih

theorem dictKeys_set (m : ResultSet) (k : String) (v : Option String) :
    dictKeys (dictSet m k v) =
      if k ∈ dictKeys m then dictKeys m else dictKeys m ++ [k] := by
  induction m with
  | nil => simp [dictSet, dictKeys]
  | cons p m ih =>
    by_cases h : p.1 = k
    · simp [dictSet, dictKeys, h]
    · have hb : (p.1 == k) = false := by simp [h]
      have hne : ¬ k = p.1 := fun hk => h hk.symm
      have hstep : dictSet (p :: m) k v = p :: dictSet m k v := by
        simp [dictSet, hb]
      rw [hstep]
      have hkeys : dictKeys (p :: dictSet m k v) = p.1 :: dictKeys (dictSet m k v) := rfl
      rw [hkeys, ih]
      by_cases hm : k ∈ List.map Prod.fst m
      · simp [dictKeys, hm, hne]
      · simp [dictKeys, hm, hne]

theorem dictKeys_set_nodup (m : ResultSet) (k : String) (v : Option String)
    (h : (dictKeys m).Nodup) : (dictKeys (dictSet m k v)).Nodup := by
  rw [dictKeys_set]
  by_cases hm : k ∈ dictKeys m
  · simpa [hm] using h
  · simp only [hm, if_false]
    have : (dictKeys m ++ [k]).Nodup := by
      refine List.Nodup.append h (List.nodup_singleton k) ?_
      intro a ha hb
      simp at hb
      exact hm (hb ▸ ha)
    exact this

theorem mem_dictKeys_iff_isSome (m : ResultSet) (k : String) :
    k ∈ dictKeys m ↔ (dictGet m k).isSome := by
  induction m with
  | nil => simp [dictKeys, dictGet, List.find?]
  | cons p m ih =>
    by_cases h : p.1 = k
    · simp [dictKeys, dictGet, List.find?, h]
    · have hb : (p.1 == k) = false := by simp [h]
      have hne : ¬ k = p.1 := fun hk => h hk.symm
      simpa [dictKeys, dictGet, List.find?, hb, hne] using ih

theorem dictGet_writeAll (fetch : String → Option String) (ts : List String)
    (m : ResultSet) (k : String) :
    dictGet (writeAll fetch ts m) k =
      if k ∈ ts then some (fetch k) else dictGet m k := by
  induction ts generalizing m with
  | nil => simp [writeAll]
  | cons t ts ih =>
    have step : writeAll fetch (t :: ts) m = writeAll fetch ts (dictSet m t (fetch t)) := by
      simp [writeAll, List.foldl]
    rw [step]
    by_cases hk : k ∈ ts
    · simp [ih, hk]
    · by_cases ht : k = t
      · subst ht
        simp [ih, hk, dictGet_set_self]
      · have : k ∉ (t :: ts) := by
          simp [ht, hk]
        simp [ih, hk, ht, this, dictGet_set_ne m t k (fetch t) ht]

theorem mem_dictKeys_writeAll (fetch : String → Option String) (ts : List String)
    (k : String) :
    k ∈ dictKeys (writeAll fetch ts []) ↔ k ∈ ts := by
  rw [mem_dictKeys_iff_isSome, dictGet_writeAll]
  by_cases hk : k ∈ ts
  · simp [hk]
  · simp [hk, dictGet, List.find?]

theorem dictKeys_writeAll_nodup (fetch : String → Option String) (ts : List String)
    (m : ResultSet) (h : (dictKeys m).Nodup) :
    (dictKeys (writeAll fetch ts m)).Nodup := by
  induction ts generalizing m with
  | nil => simpa [writeAll]
  | cons t ts ih =>
    have step : writeAll fetch (t :: ts) m = writeAll fetch ts (dictSet m t (fetch t)) := by
      simp [writeAll, List.foldl]
    rw [step]
    exact ih _ (dictKeys_set_nodup m t (fetch t) h)

/-! ### Further helper lemmas -/

theorem multithreadLoop_zero (tickers : List String) :
    multithreadLoop tickers 0 0 = windowedTrace tickers 0 0 := by
  have h := multithreadLoop_eq_windowed tickers 0 0 (le_refl 0)
    (by show 0 - 0 ≤ 5; omega)
  simpa using h

theorem foldl_outputLine (m : ResultSet) :
    ∀ acc : String,
      m.foldl (fun contents p => contents ++ outputLine p.1 p.2) acc =
        acc ++ renderedLines m := by
  induction m with
  | nil => intro acc; simp [renderedLines, String.append_empty]
  | cons p m ih =>
    intro acc
    simp only [List.foldl, renderedLines]
    rw [ih, String.append_assoc]

/-! ### Claim theorems -/

/-- C1: for every non-empty sequence of identifier strings and every fetch
function, the mapping returned by `get_CIKs` — in sequential mode and, for
every thread-completion order, in multithreaded mode — has nodup keys,
its key set equals the set of distinct input identifiers, and each key
maps to the value the fetch function yields for it (so duplicate
identifiers collapse to one entry holding one fetched value). -/
theorem C1_batch_key_set (fetch : String → Option String)
    (tickers completionOrder : List String)
    (hne : tickers ≠ []) (hperm : completionOrder.Perm tickers) :
    ((dictKeys (get_CIKs fetch tickers false completionOrder)).Nodup ∧
      (∀ k, k ∈ dictKeys (get_CIKs fetch tickers false completionOrder) ↔
        k ∈ tickers) ∧
      (∀ k, k ∈ tickers →
        dictGet (get_CIKs fetch tickers false completionOrder) k =
          some (fetch k))) ∧
    ((dictKeys (get_CIKs fetch tickers true completionOrder)).Nodup ∧
      (∀ k, k ∈ dictKeys (get_CIKs fetch tickers true completionOrder) ↔
        k ∈ tickers) ∧
      (∀ k, k ∈ tickers →
        dictGet (get_CIKs fetch tickers true completionOrder) k =
          some (fetch k))) := by
  constructor
  · refine ⟨?_, ?_, ?_⟩
    · simpa [get_CIKs] using
        dictKeys_writeAll_nodup fetch tickers [] (by simp [dictKeys])
    · intro k
      simpa [get_CIKs] using mem_dictKeys_writeAll fetch tickers k
    · intro k hk
      have h := dictGet_writeAll fetch tickers [] k
      simpa [get_CIKs, hk] using h
  · refine ⟨?_, ?_, ?_⟩
    · simpa [get_CIKs] using
        dictKeys_writeAll_nodup fetch completionOrder [] (by simp [dictKeys])
    · intro k
      have h := mem_dictKeys_writeAll fetch completionOrder k
      rw [hperm.mem_iff] at h
      simpa [get_CIKs] using h
    · intro k hk
      have hk2 : k ∈ completionOrder := hperm.mem_iff.mpr hk
      have h := dictGet_writeAll fetch completionOrder [] k
      simpa [get_CIKs, hk2] using h

/-- Witness for C1 at the spec's duplicate-identifier scenario:
`["AAPL", "AAPL"]` is non-empty, the completion order is a permutation of
it, and the multithreaded result has the single key `"AAPL"` mapped to
the fetched value. -/
theorem C1_batch_key_set_witness :
    (["AAPL", "AAPL"] ≠ ([] : List String)) ∧
    List.Perm ["AAPL", "AAPL"] ["AAPL", "AAPL"] ∧
    dictGet (get_CIKs stubFetch ["AAPL", "AAPL"] true ["AAPL", "AAPL"]) "AAPL" =
      some (stubFetch "AAPL") ∧
    dictKeys (get_CIKs stubFetch ["AAPL", "AAPL"] true ["AAPL", "AAPL"]) =
      ["AAPL"] :=
  ⟨by decide, by decide,
    (C1_batch_key_set stubFetch ["AAPL", "AAPL"] ["AAPL", "AAPL"]
      (by decide) (by decide)).2.2.2 "AAPL" (by simp),
    by decide⟩

/-- C2 counterexample: `get_CIK` does raise to its caller. With a transport
whose response is not OK, the `assert conn.ok` at tickerToCIK.py line 32
raises `AssertionError`; and when `get(url)` itself raises (a transport
failure), nothing catches the exception. Only extraction failures are
converted into `None` (the `try`/`except` covers lines 33-36 only). -/
theorem C2_counterexample_lookup_raises :
    get_CIK stubNotOkGet "AAPL" = Except.error assertMsg ∧
    get_CIK stubRaiseGet "AAPL" =
      Except.error "requests.exceptions.ConnectionError" :=
  ⟨rfl, rfl⟩

/-- C2 amended: `get_CIK` converts every extraction failure into the absent
result `None`, but transport failures are not converted — a `get(url)`
exception propagates, and a non-OK response raises `AssertionError`. When
both HTTP GETs return the same OK response, `get_CIK` returns without
exception: the guarded extraction of the body (which never raises). -/
theorem C2_lookup_no_raise_when_ok (httpGet : String → Except String Response)
    (ticker : String) (r : Response)
    (hok : httpGet (lookupURL ticker) = Except.ok r) (hr : r.ok = true) :
    get_CIK httpGet ticker = Except.ok (extractCIK r.content) := by
  simp [get_CIK, get_CIK_run, hok, hr]

/-- Witness for C2's amended theorem: an OK response whose body lacks the
CIK marker makes `get_CIK` return `None` (extraction failure swallowed,
no exception). -/
theorem C2_lookup_no_raise_when_ok_witness :
    stubNoMarkerGet (lookupURL "ZZZZ") =
      Except.ok { ok := true, content := "<html>No matching companies.</html>" } ∧
    ({ ok := true, content := "<html>No matching companies.</html>" } : Response).ok
      = true ∧
    get_CIK stubNoMarkerGet "ZZZZ" = Except.ok none := by
  refine ⟨rfl, rfl, ?_⟩
  rw [C2_lookup_no_raise_when_ok stubNoMarkerGet "ZZZZ"
    { ok := true, content := "<html>No matching companies.</html>" } rfl rfl]
  rfl

/-- C3: in the multithreaded batch loop, the pacing logic is exactly a
count-based window — the loop trace equals `windowedTrace`, whose counter
resets to `1` at a window change because the waiting caller is itself the
first admission of the new window; every segment between consecutive
`timer.start` calls contains at most `numberOfConnectionsPerSecond = 5`
admissions; and every `timer.wait` is immediately followed by a
`timer.start` and then the waiting caller's own spawn. -/
theorem C3_rate_window_admissions (tickers : List String) :
    multithreadTrace tickers = Event.timerStart 1 :: windowedTrace tickers 0 0 ∧
    ((segs (multithreadTrace tickers)).all
      (fun s => decide (admitCount s ≤ numberOfConnectionsPerSecond))) = true ∧
    waitsRearm (multithreadTrace tickers) = true := by
  have htrace : multithreadTrace tickers =
      Event.timerStart 1 :: windowedTrace tickers 0 0 := by
    simp [multithreadTrace, multithreadLoop_zero]
  refine ⟨htrace, ?_, ?_⟩
  · rw [htrace]
    obtain ⟨s, rest, hsegs, hs, hrest⟩ :=
      segs_windowed_bound tickers 0 0 (Nat.zero_le _)
    rw [List.all_eq_true]
    intro x hx
    rw [decide_eq_true_eq]
    have hsplit : segs (Event.timerStart 1 :: windowedTrace tickers 0 0) =
        [] :: segs (windowedTrace tickers 0 0) := by
      simp [segs]
    rw [hsplit, hsegs] at hx
    rcases List.mem_cons.mp hx with h1 | h1
    · subst h1; simp [admitCount]
    · rcases List.mem_cons.mp h1 with h2 | h2
      · subst h2; omega
      · exact hrest x h2
  · rw [htrace]
    have h := waitsRearm_windowed tickers 0 0
    simpa [waitsRearm] using h

/-- C4 counterexample: an empty identifier sequence is NOT rejected. The
validation at tickerToCIK.py lines 89-93 only checks that `tickers` is
iterable and that the flag is a `bool`; an empty list passes both checks,
and `get_CIKs` returns the empty dict (in either mode) instead of raising
an invalid-configuration error. -/
theorem C4_counterexample_empty_accepted :
    get_CIKs_checked stubFetch (TickersArg.ofList []) (FlagArg.ofBool false) [] =
      Except.ok [] ∧
    get_CIKs_checked stubFetch (TickersArg.ofList []) (FlagArg.ofBool true) [] =
      Except.ok [] :=
  ⟨rfl, rfl⟩

/-- C4 amended: `get_CIKs` validates before any fetch: a non-iterable
`tickers` (including `None`) raises `TypeError` and a non-boolean
concurrency flag raises `ValueError`, in both cases synchronously and
with a result independent of the fetch function (no fetch is performed);
an empty identifier sequence, however, passes validation and returns the
empty mapping — also with no fetch performed — rather than being
rejected. -/
theorem C4_validation_behaviour (fetch fetch₂ : String → Option String)
    (d d₂ : String) (flag : FlagArg) (completionOrder : List String)
    (b : Bool) (l : List String) :
    (get_CIKs_checked fetch (TickersArg.notIterable d) flag completionOrder =
      Except.error (PyError.typeError
        ("Parameter tickers of type " ++ d ++ " is not iterable."))) ∧
    (get_CIKs_checked fetch (TickersArg.notIterable d) flag completionOrder =
      get_CIKs_checked fetch₂ (TickersArg.notIterable d) flag completionOrder) ∧
    (get_CIKs_checked fetch (TickersArg.ofList l) (FlagArg.notBool d₂)
        completionOrder =
      Except.error (PyError.valueError
        ("Parameter enableMultiThreading must be either True or False not "
          ++ d₂ ++ "."))) ∧
    (get_CIKs_checked fetch (TickersArg.ofList l) (FlagArg.notBool d₂)
        completionOrder =
      get_CIKs_checked fetch₂ (TickersArg.ofList l) (FlagArg.notBool d₂)
        completionOrder) ∧
    (get_CIKs_checked fetch (TickersArg.ofList []) (FlagArg.ofBool b) [] =
      Except.ok []) ∧
    (get_CIKs_checked fetch (TickersArg.ofList []) (FlagArg.ofBool b) [] =
      get_CIKs_checked fetch₂ (TickersArg.ofList []) (FlagArg.ofBool b) []) :=
  ⟨rfl, rfl, rfl, rfl, by cases b <;> rfl, by cases b <;> rfl⟩

/-- C5: for every identifier sequence and deterministic fetch function,
the sequential run and a multithreaded run (under any thread-completion
order) produce identical mappings: every key looks up to the same value
and the key sets coincide. -/
theorem C5_modes_agree (fetch : String → Option String)
    (tickers completionOrder : List String)
    (hperm : completionOrder.Perm tickers) :
    (∀ k, dictGet (get_CIKs fetch tickers false completionOrder) k =
      dictGet (get_CIKs fetch tickers true completionOrder) k) ∧
    (∀ k, k ∈ dictKeys (get_CIKs fetch tickers false completionOrder) ↔
      k ∈ dictKeys (get_CIKs fetch tickers true completionOrder)) := by
  have key : ∀ k, dictGet (writeAll fetch tickers []) k =
      dictGet (writeAll fetch completionOrder []) k := by
    intro k
    rw [dictGet_writeAll, dictGet_writeAll]
    by_cases hk : k ∈ tickers
    · simp [hk, hperm.mem_iff.mpr hk]
    · have hk2 : k ∉ completionOrder := fun hc => hk (hperm.mem_iff.mp hc)
      simp [hk, hk2]
  constructor
  · intro k
    simpa [get_CIKs] using key k
  · intro k
    rw [mem_dictKeys_iff_isSome, mem_dictKeys_iff_isSome]
    simp only [get_CIKs, Bool.false_eq_true, ite_true, ite_false, if_true, if_false]
    rw [key k]

/-- Witness for C5 at the spec's scenario inputs, with the multithreaded
completion order reversed relative to the input order. -/
theorem C5_modes_agree_witness :
    List.Perm ["ZZZZ", "MSFT", "AAPL"] ["AAPL", "MSFT", "ZZZZ"] ∧
    dictGet (get_CIKs scenarioFetch ["AAPL", "MSFT", "ZZZZ"] false
        ["ZZZZ", "MSFT", "AAPL"]) "MSFT" =
      dictGet (get_CIKs scenarioFetch ["AAPL", "MSFT", "ZZZZ"] true
        ["ZZZZ", "MSFT", "AAPL"]) "MSFT" :=
  ⟨by decide,
    (C5_modes_agree scenarioFetch ["AAPL", "MSFT", "ZZZZ"]
      ["ZZZZ", "MSFT", "AAPL"] (by decide)).1 "MSFT"⟩

/-- C6 (code bug): a single call to `get_CIK` performs two HTTP round
trips, not one — `conn = get(url)` at tickerToCIK.py line 30 and then
`data = get(url).content.decode()` at line 31 request the same URL again,
so the request trace for `"AAPL"` against a responsive transport lists
the lookup URL twice. The comments in the source (lines 17 and 54) show
the code intends at most 5 connections per second, an intent the
duplicated GET defeats; the spec's one-round-trip reading is the evident
intent, making the duplicated request a slip in the code. -/
theorem C6_two_round_trips :
    (get_CIK_run stubOkGet "AAPL").2 = [lookupURL "AAPL", lookupURL "AAPL"] ∧
    (get_CIK_run stubOkGet "AAPL").2.length = 2 :=
  ⟨rfl, rfl⟩

/-- C7 counterexample: no invalid-configuration rejection exists at gate
construction. The code's only rate-gate construction (tickerToCIK.py
lines 46-52) is a total constant: the quota is the literal `5`, not a
parameter, `Timer()` takes no arguments (timer.py lines 13-14), and no
validation or error path exists anywhere in the construction — so no
call with a non-positive quota can even be made, let alone rejected. -/
theorem C7_counterexample_construction_total :
    initGate = { maxPerWindow := 5,
                 timer := { threadAttr := ThreadField.running 1 },
                 lastResetPos := 0 } ∧
    Timer.init = { threadAttr := ThreadField.noneVal } :=
  ⟨rfl, rfl⟩

/-- C7 amended: the gate's per-window quota is the hard-coded positive
constant 5 and is not a constructor parameter; gate construction cannot
fail (it is a total constant, with no validation because no
misconfiguration is expressible); and in the batch loop's use of the
gate the timer primitive never fails either — replaying every
`timer.start`/`timer.wait` call of the loop trace against the `Timer`
state machine raises no `AttributeError` (each `wait` acts on a started
timer), so the gate can only block, never fail. -/
theorem C7_gate_quota_fixed (tickers : List String) :
    initGate.maxPerWindow = 5 ∧
    0 < initGate.maxPerWindow ∧
    initGate.timer = Timer.start Timer.init 1 ∧
    timerCallsOk Timer.init (multithreadTrace tickers) = true := by
  refine ⟨rfl, by decide, rfl, ?_⟩
  have h := timerCallsOk_windowed tickers 0 0
  simpa [multithreadTrace, multithreadLoop_zero, timerCallsOk, Timer.start] using h

/-- C8: for every result mapping, the file sink writes exactly the
concatenation, in entry order, of one `identifier,value` line per entry,
each terminated by a newline, with an absent value rendered as the
placeholder text `None`; and the output is independent of the file's
previous contents (mode `'w'` truncates). -/
theorem C8_file_sink (previousContents : String) (mapped : ResultSet) :
    get_CIKs_file_to_file_write previousContents mapped = renderedLines mapped ∧
    get_CIKs_file_to_file_write previousContents mapped =
      get_CIKs_file_to_file_write "" mapped ∧
    renderCIK none = "None" ∧
    outputLine "ZZZZ" none = "ZZZZ,None\n" := by
  have h : get_CIKs_file_to_file_write previousContents mapped =
      renderedLines mapped := by
    have hf := foldl_outputLine mapped ""
    rw [String.empty_append] at hf
    simpa [get_CIKs_file_to_file_write] using hf
  refine ⟨h, ?_, rfl, rfl⟩
  rw [h]
  have h₂ : get_CIKs_file_to_file_write "" mapped = renderedLines mapped := by
    have hf := foldl_outputLine mapped ""
    rw [String.empty_append] at hf
    simpa [get_CIKs_file_to_file_write] using hf
  rw [h₂]

/-- C9: result keys are the input strings unchanged — stripping happens
only in `lookupURL` — so `"AAPL"` and `" AAPL\n"` are distinct keys with
their own entries in both modes, even though `get_CIK` treats them
identically (same URL, same requests, same outcome). -/
theorem C9_keys_unstripped (fetch : String → Option String)
    (httpGet : String → Except String Response) :
    ("AAPL" : String) ≠ " AAPL\n" ∧
    lookupURL "AAPL" = lookupURL " AAPL\n" ∧
    get_CIK_run httpGet "AAPL" = get_CIK_run httpGet " AAPL\n" ∧
    dictGet (get_CIKs fetch ["AAPL", " AAPL\n"] false []) "AAPL" =
      some (fetch "AAPL") ∧
    dictGet (get_CIKs fetch ["AAPL", " AAPL\n"] false []) " AAPL\n" =
      some (fetch " AAPL\n") ∧
    dictKeys (get_CIKs fetch ["AAPL", " AAPL\n"] false []) =
      ["AAPL", " AAPL\n"] ∧
    dictGet (get_CIKs fetch ["AAPL", " AAPL\n"] true ["AAPL", " AAPL\n"]) "AAPL" =
      some (fetch "AAPL") ∧
    dictGet (get_CIKs fetch ["AAPL", " AAPL\n"] true ["AAPL", " AAPL\n"])
      " AAPL\n" = some (fetch " AAPL\n") := by
  have hurl : lookupURL " AAPL\n" = lookupURL "AAPL" := by decide
  have hne : ("AAPL" : String) ≠ " AAPL\n" := by decide
  have hb : (("AAPL" : String) == " AAPL\n") = false := by decide
  have hw : writeAll fetch ["AAPL", " AAPL\n"] [] =
      [("AAPL", fetch "AAPL"), (" AAPL\n", fetch " AAPL\n")] := by
    simp [writeAll, dictSet, hb]
  have hrun : get_CIK_run httpGet "AAPL" = get_CIK_run httpGet " AAPL\n" := by
    simp only [get_CIK_run, hurl]
  refine ⟨hne, hurl.symm, hrun, ?_, ?_, ?_, ?_, ?_⟩
  · simp [get_CIKs, hw, dictGet, List.find?]
  · simp [get_CIKs, hw, dictGet, List.find?, hb]
  · simp [get_CIKs, hw, dictKeys]
  · simp [get_CIKs, hw, dictGet, List.find?]
  · simp [get_CIKs, hw, dictGet, List.find?, hb]

/-- C10: `Timer.wait` returns immediately (without joining) when `start`
was never called, since `__init__` sets `_thread = None`; after a `wait`
that joined a started timer, the `_thread` attribute has been deleted
(`del self._thread`), so a second `wait` without an intervening `start`
raises `AttributeError` instead of returning immediately. -/
theorem C10_timer_wait_behaviour (seconds : Nat) :
    Timer.wait Timer.init = (WaitOutcome.returned false, Timer.init) ∧
    (Timer.wait (Timer.start Timer.init seconds)).1 = WaitOutcome.returned true ∧
    (Timer.wait (Timer.start Timer.init seconds)).2 =
      { threadAttr := ThreadField.attrDeleted } ∧
    (Timer.wait (Timer.wait (Timer.start Timer.init seconds)).2).1 =
      WaitOutcome.attributeError :=
  ⟨rfl, rfl, rfl, rfl⟩
